import Mathlib

set_option maxRecDepth 4000

/-!
Verification development for the LINE expense-webhook application
(`webhook_app.py`).  The Python handler is shallowly embedded: JSON scalar
values become the inductive `JVal`, the extraction record (a Python dict)
becomes an association list, the message-handling control flow becomes the
pure function `handle_message` returning a `HandlerResult` that records the
terminal outcome, the rows appended to the sheet, the stages that executed,
and the push / reply messages attempted.  External collaborators (the GPT
completion endpoint, `json.loads`, the sheet snapshot, the wall-clock
timestamp) are passed in as explicit parameters.
-/

/-- Models a JSON scalar value as produced by `json.loads` for the fields of
the extraction record: `null`, strings, integers and booleans (floats, lists
and nested objects do not occur in the behaviours under study). -/
inductive JVal where
  | null
  | str (s : String)
  | int (n : Int)
  | bool (b : Bool)
deriving DecidableEq, Repr

/-- The extraction record: a Python dict from field names to JSON values,
embedded as an association list with first-match lookup. -/
abbrev RecordDict := List (String × JVal)

/-- Models `record.get(key)` (returns `None` when the key is absent). -/
def dget (record : RecordDict) (key : String) : Option JVal :=
  (record.find? (fun p => p.1 == key)).map (fun p => p.2)

/-- Models `record.get(key, "")`: lookup with the empty-string default used by
`write_record_to_sheet`. -/
def dgetD (record : RecordDict) (key : String) : JVal :=
  (dget record key).getD (JVal.str "")

/-- Lookup defaulting to `null`; used where the Python code indexes
`record[key]` on a key guaranteed present by the preceding validation. -/
def dgetN (record : RecordDict) (key : String) : JVal :=
  (dget record key).getD JVal.null

/-- Python truthiness (`bool(value)`) of an optional JSON value:
`None`, `""`, `0` and `False` are falsy.  Models `not record.get(k)`. -/
def truthy : Option JVal → Bool
  | none => false
  | some JVal.null => false
  | some (JVal.str s) => s != ""
  | some (JVal.int n) => n != 0
  | some (JVal.bool b) => b

/-- Models Python `isinstance(value, int)`: true for integers and booleans
(`bool` is a subclass of `int` in Python), false for everything else
including an absent value (`None`). -/
def isInstInt : Option JVal → Bool
  | some (JVal.int _) => true
  | some (JVal.bool _) => true
  | _ => false

/-- Python `*` on the value types that can reach
`record["單價"] * record["數量"]`: `int` and `bool` multiply numerically
(booleans coerce to 0/1); any other combination raises `TypeError`,
modelled as `none`. -/
def pyMul : JVal → JVal → Option JVal
  | JVal.int a, JVal.int b => some (JVal.int (a * b))
  | JVal.int a, JVal.bool b => some (JVal.int (a * (if b then 1 else 0)))
  | JVal.bool a, JVal.int b => some (JVal.int ((if a then 1 else 0) * b))
  | JVal.bool a, JVal.bool b =>
      some (JVal.int ((if a then 1 else 0) * (if b then 1 else 0)))
  | _, _ => none

/-- Python `str(value)` as used inside the confirmation f-string. -/
def jvalDisp : JVal → String
  | JVal.null => "None"
  | JVal.str s => s
  | JVal.int n => toString n
  | JVal.bool b => if b then "True" else "False"

/-! String utilities, embedded over `List Char` so that the kernel can
evaluate them on concrete inputs. -/

/-- Models Python `str.strip()` (whitespace at both ends removed). -/
def pyStrip (s : String) : String :=
  String.mk
    (((s.toList.dropWhile Char.isWhitespace).reverse.dropWhile
        Char.isWhitespace).reverse)

/-- Naive substring search on character lists: true iff `pat` occurs
contiguously in the list. -/
def subList (pat : List Char) : List Char → Bool
  | [] => pat.isEmpty
  | c :: cs => pat.isPrefixOf (c :: cs) || subList pat cs

/-- Models the Python containment test `pat in s` on strings. -/
def strContains (s pat : String) : Bool :=
  subList pat.toList s.toList

/-- Helper for `firstWord`: splits a character list into maximal runs of
non-whitespace characters, like Python `str.split()` with no argument. -/
def wordsAux : List Char → List Char → List (List Char)
  | [], acc => if acc.isEmpty then [] else [acc.reverse]
  | c :: cs, acc =>
      if c.isWhitespace then
        if acc.isEmpty then wordsAux cs [] else acc.reverse :: wordsAux cs []
      else wordsAux cs (c :: acc)

/-- Models `text.split()[0]` from the handler: the first whitespace-separated
word, or `none` when the split list is empty and the indexing raises
`IndexError`. -/
def firstWord (text : String) : Option String :=
  ((wordsAux text.toList []).head?).map String.mk

/-- The opening brace character, `"{"` in the Python source. -/
def openBrace : Char := Char.ofNat 123

/-- The closing brace character, `"}"` in the Python source. -/
def closeBrace : Char := Char.ofNat 125

/-- Index of the first occurrence of a character, like Python `str.find`
(with `none` standing for the -1 failure result). -/
def firstIdx (c : Char) : List Char → Option Nat
  | [] => none
  | x :: xs => if x = c then some 0 else (firstIdx c xs).map (fun n => n + 1)

/-- Models the JSON-carving step of `analyze_message_with_gpt`:
`start = content.find("{")`, `end = content.rfind("}")`, raising (`none`)
when either is -1, and otherwise slicing `content[start:end+1]`.  No quote
normalization and no newline or escape stripping is performed. -/
def carve_json (content : String) : Option String :=
  let cs := content.toList
  match firstIdx openBrace cs, firstIdx closeBrace cs.reverse with
  | some s, some rj => some (String.mk ((cs.drop s).take (cs.length - 1 - rj + 1 - s)))
  | _, _ => none

/-- One attempt of the extraction adapter: the collaborator's response text
for this attempt (`none` models a raised transport error), stripped, carved,
then decoded.  `decode` stands for `json.loads`, returning `none` on any
decode error; every failure is caught inside the adapter. -/
def attempt_extract (decode : String → Option RecordDict) (resp : Option String) :
    Option RecordDict :=
  match resp with
  | none => none
  | some raw =>
      match carve_json (pyStrip raw) with
      | none => none
      | some js => decode js

/-- Models `analyze_message_with_gpt(text, retry)`: attempt the extraction;
on any failure, if retry budget remains, recurse with the budget decremented
(the `time.sleep(1)` backoff is a real-time effect carrying no data and is
not modelled); when the budget is exhausted return `None`.  `responses i`
is the collaborator's response on the i-th attempt.  The result pairs the
adapter's answer with the number of attempts actually made. -/
def analyze_message_with_gpt (decode : String → Option RecordDict)
    (responses : Nat → Option String) : Nat → Nat → Option RecordDict × Nat
  | i, 0 =>
      (match attempt_extract decode (responses i) with
       | some r => some r
       | none => none, 1)
  | i, Nat.succ retry =>
      match attempt_extract decode (responses i) with
      | some r => (some r, 1)
      | none =>
          let p := analyze_message_with_gpt decode responses (i + 1) retry
          (p.1, p.2 + 1)

/-! The field-defect messages appended by the validation step. -/

/-- Descriptor appended when the category field is falsy. -/
def catMsg : String := "分類（如食/衣/住/行）"

/-- Descriptor appended when the item field is falsy. -/
def itemMsg : String := "品項（如蘋果/衣服）"

/-- Descriptor appended when the unit-price field is not an int instance. -/
def priceMsg : String := "單價（例如：50元）"

/-- Descriptor appended when the quantity field is not an int instance. -/
def qtyMsg : String := "數量（例如：1個）"

/-- Models Step 3 of `handle_message`: the `MISSING_FIELDS` list.  Four
sequential, independent checks, each appending one descriptor when it fails:
`not record.get("分類")`, `not record.get("品項")`,
`not isinstance(record.get("單價"), int)`,
`not isinstance(record.get("數量"), int)`.  Being a function of the record,
the result is deterministic and its order is fixed by the check order. -/
def MISSING_FIELDS (record : RecordDict) : List String :=
  (if truthy (dget record "分類") then [] else [catMsg]) ++
  (if truthy (dget record "品項") then [] else [itemMsg]) ++
  (if isInstInt (dget record "單價") then [] else [priceMsg]) ++
  (if isInstInt (dget record "數量") then [] else [qtyMsg])

/-- Models `write_record_to_sheet(record)`: computes
`total = record["單價"] * record["數量"]` (a `KeyError` on an absent key or a
`TypeError` in the product is modelled as `none`) and builds the row in the
fixed column order timestamp, category, item, unit price, quantity, total,
note, then the four optional nutrition fields, each via `record.get(k, "")`.
The wall-clock minute-resolution timestamp
(`datetime.now().strftime("%Y-%m-%d %H:%M")`) enters as the parameter
`now`. -/
def write_record_to_sheet (now : String) (record : RecordDict) :
    Option (List JVal) :=
  match dget record "單價", dget record "數量" with
  | some p, some q =>
      match pyMul p q with
      | some total =>
          some [JVal.str now, dgetD record "分類", dgetD record "品項",
                p, q, total, dgetD record "備註",
                dgetD record "攝取熱量(kcal)", dgetD record "攝取糖份(g)",
                dgetD record "剩餘量", dgetD record "每日消耗(kcal)"]
      | none => none
  | _, _ => none

/-- Models `sheet.append_row(row)` on a snapshot of the ledger: the row is
added at the end, purely additively. -/
def append_row (ledger : List (List JVal)) (row : List JVal) :
    List (List JVal) :=
  ledger ++ [row]

/-- Models Step 1 of `handle_message`:
`[row for row in all_data[1:] if item in row]` — all non-header rows having
some cell exactly equal to the token.  The scan has no deadline parameter
and no timeout result. -/
def scan_matches (token : String) (all_data : List (List String)) :
    List (List String) :=
  (all_data.drop 1).filter (fun row => row.contains token)

/-- The preview rows: `matched_rows[:3]`. -/
def scan_preview (token : String) (all_data : List (List String)) :
    List (List String) :=
  (scan_matches token all_data).take 3

/-- Follows the spec's words, for comparison with `scan_matches`
(refinement check): a row matches when any of its cells textually CONTAINS
the token as a substring. -/
def spec_scan_matches (token : String) (all_data : List (List String)) :
    List (List String) :=
  (all_data.drop 1).filter (fun row => row.any (fun cell => strContains cell token))

/-- Follows the spec's words, for comparison with `carve_json` (refinement
check): after carving, typographic double quotes are normalized to plain
quotes and embedded newline and backslash characters are stripped. -/
def normChar (c : Char) : Option Char :=
  if c = '\n' then none
  else if c = '\\' then none
  else if c = '“' then some '"'
  else if c = '”' then some '"'
  else some c

/-- The spec-side cleaning pipeline: carve, then normalize quotes and strip
newlines and escapes (see `normChar`). -/
def spec_clean_json (content : String) : Option String :=
  (carve_json content).map (fun s => String.mk (s.toList.filterMap normChar))

/-! The message handler. -/

/-- The inbound event's source identifiers.  The LINE SDK exposes an optional
direct-user id, group id and room id on `event.source`. -/
structure Source where
  user_id : Option String
  group_id : Option String
  room_id : Option String
deriving DecidableEq, Repr

/-- The inbound message event: raw text plus the source identifiers. -/
structure Event where
  text : String
  source : Source
deriving DecidableEq, Repr

/-- Pipeline stages, recorded in execution order in the handler trace. -/
inductive Stage where
  | intakeFilter
  | duplicateScan
  | extraction
  | validation
  | ledgerWrite
  | respond
deriving DecidableEq, Repr

/-- Terminal outcomes of one handler invocation.  `unhandledError` marks the
case where even the error-reporting push raised, so the exception escaped
`handle_message`. -/
inductive Outcome where
  | cancelled
  | extractionFailure
  | missingFields (fields : List String)
  | written (row : List JVal)
  | internalError
  | unhandledError
deriving DecidableEq, Repr

/-- Observable result of one handler invocation: the terminal outcome, the
rows appended to the ledger, the stage trace, the attempted push messages
as (target, text) pairs in order, and the reply-token messages. -/
structure HandlerResult where
  outcome : Outcome
  appends : List (List JVal)
  trace : List Stage
  pushes : List (Option String × String)
  replies : List String
deriving DecidableEq, Repr

/-- The cancellation keywords from the handler. -/
def CANCEL_KEYWORDS : List String := ["不用處理", "繞過", "結束", "跳過", "沒關係"]

/-- The immediate acknowledgment reply text. -/
def ackMsg : String := "⏳ 處理中，查詢資料中..."

/-- The cancellation reply text. -/
def cancelMsg : String := "✅ 已中斷處理"

/-- The extraction-failure push text. -/
def failMsg : String := "❌ 分析失敗，請再試一次或換句話說"

/-- The catch-all error push text. -/
def errMsg : String := "❌ 錯誤，請稍後再試或手動輸入"

/-- The similar-rows preview push text: the first 3 matched rows, each
showing its first 5 cells joined with a separator bar. -/
def previewMsgText (matched : List (List String)) : String :=
  "🔍 找到類似資料：\n" ++
    String.intercalate "\n"
      ((matched.take 3).map (fun r => String.intercalate "｜" (r.take 5)))

/-- The follow-up question push text listing the missing-field descriptors. -/
def questionMsg (missing : List String) : String :=
  "❓ 我需要更多資訊：\n" ++
    String.intercalate "\n" (missing.map (fun f => "- " ++ f))

/-- The confirmation push text
`f"✅ 已記錄：{item} × {qty} = {total} 元"`. -/
def replyMsg (record : RecordDict) (total : JVal) : String :=
  "✅ 已記錄：" ++ jvalDisp (dgetN record "品項") ++ " × " ++
    jvalDisp (dgetN record "數量") ++ " = " ++ jvalDisp total ++ " 元"

/-- All push messages of the handler are sent with
`line_bot_api.push_message(event.source.user_id, ...)`; this tags each
message with that one target. -/
def toUser (uid : Option String) (msgs : List String) :
    List (Option String × String) :=
  msgs.map (fun m => (uid, m))

/-- The `except` branch of the handler: it attempts one final error push to
the user id.  A push with an absent target raises, so when `uid` is `none`
this last push raises too and the exception escapes the handler
(`unhandledError`); otherwise the outcome is the internal-error report. -/
def errPush (uid : Option String) (ap : List (List JVal)) (tr : List Stage)
    (ms : List String) (rs : List String) : HandlerResult :=
  { outcome := if uid.isSome then Outcome.internalError else Outcome.unhandledError,
    appends := ap,
    trace := tr ++ [Stage.respond],
    pushes := toUser uid (ms ++ [errMsg]),
    replies := rs }

/-- Models `handle_message(event)` from `webhook_app.py`.

The embedding makes the external collaborators explicit: `decode` stands for
`json.loads`, `responses` for the GPT completion per attempt, `sheetData`
for `sheet.get_all_values()` (row 0 the header), `now` for the timestamp.
A `push_message` whose target is absent raises (modelled by routing into
`errPush`); `reply_message` calls, `sheet` reads and `append_row` itself
are assumed to succeed, and the initial acknowledgment's failure is
swallowed by the source's bare `try/except: pass` either way. -/
def handle_message (decode : String → Option RecordDict)
    (responses : Nat → Option String) (sheetData : List (List String))
    (now : String) (event : Event) : HandlerResult :=
  let text := pyStrip event.text
  let uid := event.source.user_id
  if CANCEL_KEYWORDS.any (fun kw => strContains text kw) then
    { outcome := Outcome.cancelled, appends := [],
      trace := [Stage.intakeFilter, Stage.respond],
      pushes := toUser uid [], replies := [cancelMsg] }
  else
    let rs := [ackMsg]
    match firstWord text with
    | none => errPush uid [] [Stage.intakeFilter] [] rs
    | some item =>
      let matched_rows := (sheetData.drop 1).filter (fun row => row.contains item)
      let pmsgs := if matched_rows.isEmpty then [] else [previewMsgText matched_rows]
      if !matched_rows.isEmpty && uid.isNone then
        errPush uid [] [Stage.intakeFilter, Stage.duplicateScan] pmsgs rs
      else
        let tr2 := [Stage.intakeFilter, Stage.duplicateScan, Stage.extraction]
        match (analyze_message_with_gpt decode responses 0 1).1 with
        | none =>
          if uid.isNone then errPush uid [] tr2 (pmsgs ++ [failMsg]) rs
          else
            { outcome := Outcome.extractionFailure, appends := [],
              trace := tr2 ++ [Stage.respond],
              pushes := toUser uid (pmsgs ++ [failMsg]), replies := rs }
        | some record =>
          if record.isEmpty then
            if uid.isNone then errPush uid [] tr2 (pmsgs ++ [failMsg]) rs
            else
              { outcome := Outcome.extractionFailure, appends := [],
                trace := tr2 ++ [Stage.respond],
                pushes := toUser uid (pmsgs ++ [failMsg]), replies := rs }
          else
            let tr3 := tr2 ++ [Stage.validation]
            let missing := MISSING_FIELDS record
            if !missing.isEmpty then
              if uid.isNone then errPush uid [] tr3 (pmsgs ++ [questionMsg missing]) rs
              else
                { outcome := Outcome.missingFields missing, appends := [],
                  trace := tr3 ++ [Stage.respond],
                  pushes := toUser uid (pmsgs ++ [questionMsg missing]), replies := rs }
            else
              match write_record_to_sheet now record with
              | none => errPush uid [] tr3 pmsgs rs
              | some row =>
                let tr4 := tr3 ++ [Stage.ledgerWrite]
                let reply := replyMsg record
                  ((pyMul (dgetN record "單價") (dgetN record "數量")).getD JVal.null)
                if uid.isNone then errPush uid [row] tr4 (pmsgs ++ [reply]) rs
                else
                  { outcome := Outcome.written row, appends := [row],
                    trace := tr4 ++ [Stage.respond],
                    pushes := toUser uid (pmsgs ++ [reply]), replies := rs }

/-- Follows the spec's words, for comparison (refinement check): the
outbound target is whichever source identifier (direct, group, room) is
present on the inbound event. -/
def spec_push_target (s : Source) : Option String :=
  match s.user_id with
  | some u => some u
  | none =>
      match s.group_id with
      | some g => some g
      | none => s.room_id

/-! Helper lemmas. -/

/-- When every attempt fails, the retry loop returns `None` after exactly
`retry + 1` attempts, for any starting attempt index. -/
theorem analyze_all_fail_aux (decode : String → Option RecordDict)
    (responses : Nat → Option String)
    (h : ∀ i, attempt_extract decode (responses i) = none) :
    ∀ (retry i : Nat),
      analyze_message_with_gpt decode responses i retry = (none, retry + 1) := by
  intro retry
  induction retry with
  | zero => intro i; simp [analyze_message_with_gpt, h i]
  | succ r ih => intro i; simp [analyze_message_with_gpt, h i, ih (i + 1)]

/-- Index of the first occurrence of `c` in `a ++ c :: l` when `c` does not
occur in `a`. -/
theorem firstIdx_prefix (c : Char) :
    ∀ (a l : List Char), c ∉ a → firstIdx c (a ++ c :: l) = some a.length := by
  intro a
  induction a with
  | nil => intro l _; simp [firstIdx]
  | cons x xs ih =>
      intro l hx
      have hxc : ¬(x = c) := by
        intro hcontra
        exact hx (by simp [hcontra])
      have hxs : c ∉ xs := fun hmem => hx (List.mem_cons_of_mem _ hmem)
      simp [firstIdx, hxc, ih l hxs]

/-- Taking one element past a left factor of an append. -/
theorem take_append_len_one (c : Char) :
    ∀ (m z : List Char), (m ++ c :: z).take (m.length + 1) = m ++ [c] := by
  intro m z
  induction m with
  | nil => rfl
  | cons x xs ih => simp [List.take_succ_cons, ih]

/-- Every branch of the handler addresses all its pushes to the one target
`event.source.user_id`. -/
theorem handle_pushes_shape (decode : String → Option RecordDict)
    (responses : Nat → Option String) (sheetData : List (List String))
    (now : String) (event : Event) :
    ∃ msgs, (handle_message decode responses sheetData now event).pushes
      = toUser event.source.user_id msgs := by
  simp only [handle_message, errPush]
  repeat' split
  all_goals exact ⟨_, rfl⟩

/-! Claim theorems. -/

/-- C1 counterexample: the duplicate scan does not return every textual
(substring) match.  The non-header row `["咖啡拿鐵", "50"]` textually
contains the token `"咖啡"` in its first cell — so the spec-side scanner
returns it — yet the code's scan, which tests exact cell equality
(`item in row` on a Python list) and has no deadline parameter at all,
returns nothing. -/
theorem C1_counterexample :
    scan_matches "咖啡" [["標題"], ["咖啡拿鐵", "50"]] = [] ∧
    spec_scan_matches "咖啡" [["標題"], ["咖啡拿鐵", "50"]]
      = [["咖啡拿鐵", "50"]] := by
  decide

/-- C1 (amended): the scan has no deadline and no timeout outcome; it always
examines all non-header rows, a row is returned exactly when it is a
non-header row with some cell exactly equal to the token, and the preview is
the first at most 3 of the matches in original order. -/
theorem C1_scan_no_deadline :
    ∀ (token : String) (all_data : List (List String)),
      (∀ row, row ∈ scan_matches token all_data ↔
        row ∈ all_data.drop 1 ∧ row.contains token = true) ∧
      (scan_preview token all_data).length ≤ 3 ∧
      List.Sublist (scan_preview token all_data) (scan_matches token all_data) := by
  intro token all_data
  refine ⟨fun row => ?_, ?_, ?_⟩
  · simp [scan_matches, List.mem_filter]
  · simp only [scan_preview, List.length_take]
    exact min_le_left _ _
  · exact List.take_sublist 3 _

/-- C2: when every attempt yields no decodable JSON object, the adapter makes
exactly `maxRetries + 1` attempts and returns `None` (the extraction-failure
marker); the adapter is a total function, so no decode error escapes it. -/
theorem C2_retry_exhaustion (decode : String → Option RecordDict)
    (responses : Nat → Option String) (maxRetries : Nat)
    (h : ∀ i, attempt_extract decode (responses i) = none) :
    analyze_message_with_gpt decode responses 0 maxRetries
      = (none, maxRetries + 1) :=
  analyze_all_fail_aux decode responses h maxRetries 0

/-- Witness for C2 at a collaborator that always answers prose without any
JSON object, with a retry budget of 2: exactly 3 attempts are made. -/
theorem C2_retry_exhaustion_witness :
    (∀ i : Nat, attempt_extract (fun _ => none)
        ((fun _ : Nat => some "sorry cannot help") i) = none) ∧
    analyze_message_with_gpt (fun _ => none)
        (fun _ : Nat => some "sorry cannot help") 0 2 = (none, 3) :=
  ⟨fun _ => rfl,
   C2_retry_exhaustion (fun _ => none) (fun _ => some "sorry cannot help") 2
     (fun _ => rfl)⟩

/-- C3: when the stripped text contains any configured cancellation keyword,
the handler terminates with the `Cancelled` outcome, appends no ledger row,
and the extraction stage never runs. -/
theorem C3_cancellation (decode : String → Option RecordDict)
    (responses : Nat → Option String) (sheetData : List (List String))
    (now : String) (event : Event) (kw : String)
    (hkw : kw ∈ CANCEL_KEYWORDS)
    (hsub : strContains (pyStrip event.text) kw = true) :
    (handle_message decode responses sheetData now event).outcome
        = Outcome.cancelled ∧
    (handle_message decode responses sheetData now event).appends = [] ∧
    Stage.extraction ∉
      (handle_message decode responses sheetData now event).trace := by
  have hc : (CANCEL_KEYWORDS.any fun k => strContains (pyStrip event.text) k)
      = true := List.any_eq_true.mpr ⟨kw, hkw, hsub⟩
  refine ⟨?_, ?_, ?_⟩ <;> simp [handle_message, hc]

/-- Witness for C3: the message `"這筆不用處理"` contains the keyword
`"不用處理"`, so the outcome is `Cancelled` with no append and no
extraction. -/
theorem C3_cancellation_witness :
    ("不用處理" ∈ CANCEL_KEYWORDS ∧
      strContains (pyStrip "這筆不用處理") "不用處理" = true) ∧
    ((handle_message (fun _ => none) (fun _ => none) []
        "2024-01-01 09:30" ⟨"這筆不用處理", ⟨some "U1", none, none⟩⟩).outcome
        = Outcome.cancelled ∧
     (handle_message (fun _ => none) (fun _ => none) []
        "2024-01-01 09:30" ⟨"這筆不用處理", ⟨some "U1", none, none⟩⟩).appends = [] ∧
     Stage.extraction ∉
       (handle_message (fun _ => none) (fun _ => none) []
         "2024-01-01 09:30" ⟨"這筆不用處理", ⟨some "U1", none, none⟩⟩).trace) :=
  ⟨⟨by decide, by decide⟩,
   C3_cancellation (fun _ => none) (fun _ => none) [] "2024-01-01 09:30"
     ⟨"這筆不用處理", ⟨some "U1", none, none⟩⟩ "不用處理" (by decide) (by decide)⟩

/-- Follows the spec's words, for comparison (refinement check): the
category / item rule as stated, requiring a non-empty STRING value. -/
def spec_nonempty_str : Option JVal → Bool
  | some (JVal.str s) => s != ""
  | _ => false

/-- C4 counterexample: with the category field holding the integer 12 the
spec's rule "category is a non-empty string" is violated, so the claimed
descriptor list should contain exactly one entry for it; the code's check is
Python truthiness, which the integer 12 passes, so the returned list is
empty. -/
theorem C4_counterexample :
    spec_nonempty_str (dget [("分類", JVal.int 12), ("品項", JVal.str "蘋果"),
        ("單價", JVal.int 50), ("數量", JVal.int 1)] "分類") = false ∧
    MISSING_FIELDS [("分類", JVal.int 12), ("品項", JVal.str "蘋果"),
        ("單價", JVal.int 50), ("數量", JVal.int 1)] = [] := by
  decide

/-- C4 (amended): the validator runs four independent checks without
short-circuiting — category truthy, item truthy, unit price an `int`
instance, quantity an `int` instance (not the spec's "non-empty string" /
"integer-valued" rules) — and the descriptor list is always a sublist of the
fixed four-descriptor sequence, containing each descriptor exactly when its
check fails, independently of the other fields; being a function of the
record, equal inputs yield the same ordered list. -/
theorem C4_missing_fields_characterization :
    ∀ record : RecordDict,
      List.Sublist (MISSING_FIELDS record) [catMsg, itemMsg, priceMsg, qtyMsg] ∧
      (catMsg ∈ MISSING_FIELDS record ↔ truthy (dget record "分類") = false) ∧
      (itemMsg ∈ MISSING_FIELDS record ↔ truthy (dget record "品項") = false) ∧
      (priceMsg ∈ MISSING_FIELDS record ↔ isInstInt (dget record "單價") = false) ∧
      (qtyMsg ∈ MISSING_FIELDS record ↔ isInstInt (dget record "數量") = false) := by
  intro record
  cases h1 : truthy (dget record "分類") <;>
    cases h2 : truthy (dget record "品項") <;>
      cases h3 : isInstInt (dget record "單價") <;>
        cases h4 : isInstInt (dget record "數量") <;>
          simp only [MISSING_FIELDS, h1, h2, h3, h4] <;> decide

/-- C5 counterexample: the input "咖啡 50" with the extraction yielding
`分類="食", 品項="咖啡", 單價=50` and NO quantity field does not validate
with a default quantity of 1; instead the quantity descriptor is reported
and nothing is written. -/
theorem C5_counterexample :
    (handle_message
        (fun _ => some [("分類", JVal.str "食"), ("品項", JVal.str "咖啡"),
                        ("單價", JVal.int 50)])
        (fun _ => some "\x7b\x7d") [] "2024-01-01 09:30"
        ⟨"咖啡 50", ⟨some "U1", none, none⟩⟩).outcome
      = Outcome.missingFields [qtyMsg] ∧
    (handle_message
        (fun _ => some [("分類", JVal.str "食"), ("品項", JVal.str "咖啡"),
                        ("單價", JVal.int 50)])
        (fun _ => some "\x7b\x7d") [] "2024-01-01 09:30"
        ⟨"咖啡 50", ⟨some "U1", none, none⟩⟩).appends = [] := by
  constructor <;> decide

/-- C5 (amended): an absent quantity IS reported as a defect — the quantity
descriptor always appears in the validator output when the field is missing,
so validation fails and the record is not written; no default of 1 exists.
Only the presence of an `int`-instance quantity avoids the descriptor. -/
theorem C5_absent_quantity_flagged (record : RecordDict)
    (h : dget record "數量" = none) :
    qtyMsg ∈ MISSING_FIELDS record ∧ MISSING_FIELDS record ≠ [] := by
  have h4 : isInstInt (dget record "數量") = false := by rw [h]; rfl
  constructor
  · simp [MISSING_FIELDS, h4]
  · simp [MISSING_FIELDS, h4]

/-- Witness for C5 (amended) at the extraction record for "咖啡 50" without
a quantity field. -/
theorem C5_absent_quantity_flagged_witness :
    dget [("分類", JVal.str "食"), ("品項", JVal.str "咖啡"),
        ("單價", JVal.int 50)] "數量" = none ∧
    (qtyMsg ∈ MISSING_FIELDS [("分類", JVal.str "食"), ("品項", JVal.str "咖啡"),
        ("單價", JVal.int 50)] ∧
     MISSING_FIELDS [("分類", JVal.str "食"), ("品項", JVal.str "咖啡"),
        ("單價", JVal.int 50)] ≠ []) :=
  ⟨by decide,
   C5_absent_quantity_flagged
     [("分類", JVal.str "食"), ("品項", JVal.str "咖啡"), ("單價", JVal.int 50)]
     (by decide)⟩

/-- C6: for a record whose unit price and quantity are integers (as every
record passing validation with integer fields has), the writer produces
exactly one row in the fixed column order timestamp, category, item, unit
price, quantity, total, note, then the optional fields, with
`total = unitPrice * quantity`; appending it grows the ledger by exactly one
row and reading back the last row returns that row.  The timestamp enters as
the opaque `now` parameter (the source formats it at minute resolution). -/
theorem C6_write_round_trip (now : String) (record : RecordDict)
    (ledger : List (List JVal)) (p q : Int)
    (hp : dget record "單價" = some (JVal.int p))
    (hq : dget record "數量" = some (JVal.int q)) :
    ∃ row,
      write_record_to_sheet now record = some row ∧
      row = [JVal.str now, dgetD record "分類", dgetD record "品項",
             JVal.int p, JVal.int q, JVal.int (p * q), dgetD record "備註",
             dgetD record "攝取熱量(kcal)", dgetD record "攝取糖份(g)",
             dgetD record "剩餘量", dgetD record "每日消耗(kcal)"] ∧
      row.get? 5 = some (JVal.int (p * q)) ∧
      (append_row ledger row).getLast? = some row ∧
      (append_row ledger row).length = ledger.length + 1 := by
  have hw : write_record_to_sheet now record
      = some [JVal.str now, dgetD record "分類", dgetD record "品項",
              JVal.int p, JVal.int q, JVal.int (p * q), dgetD record "備註",
              dgetD record "攝取熱量(kcal)", dgetD record "攝取糖份(g)",
              dgetD record "剩餘量", dgetD record "每日消耗(kcal)"] := by
    simp [write_record_to_sheet, hp, hq, pyMul]
  refine ⟨_, hw, rfl, rfl, ?_, ?_⟩
  · simp [append_row]
  · simp [append_row]

/-- Witness for C6: writing the record 食 / 咖啡 / 50 / 1 onto a one-row
ledger appends the row with cells 食, 咖啡, 50, 1 and total 50 = 50 * 1. -/
theorem C6_write_round_trip_witness :
    (dget [("分類", JVal.str "食"), ("品項", JVal.str "咖啡"),
        ("單價", JVal.int 50), ("數量", JVal.int 1)] "單價"
        = some (JVal.int 50) ∧
     dget [("分類", JVal.str "食"), ("品項", JVal.str "咖啡"),
        ("單價", JVal.int 50), ("數量", JVal.int 1)] "數量"
        = some (JVal.int 1)) ∧
    (∃ row,
      write_record_to_sheet "2024-01-01 09:30"
          [("分類", JVal.str "食"), ("品項", JVal.str "咖啡"),
           ("單價", JVal.int 50), ("數量", JVal.int 1)] = some row ∧
      row = [JVal.str "2024-01-01 09:30",
             dgetD [("分類", JVal.str "食"), ("品項", JVal.str "咖啡"),
                ("單價", JVal.int 50), ("數量", JVal.int 1)] "分類",
             dgetD [("分類", JVal.str "食"), ("品項", JVal.str "咖啡"),
                ("單價", JVal.int 50), ("數量", JVal.int 1)] "品項",
             JVal.int 50, JVal.int 1, JVal.int (50 * 1),
             dgetD [("分類", JVal.str "食"), ("品項", JVal.str "咖啡"),
                ("單價", JVal.int 50), ("數量", JVal.int 1)] "備註",
             dgetD [("分類", JVal.str "食"), ("品項", JVal.str "咖啡"),
                ("單價", JVal.int 50), ("數量", JVal.int 1)] "攝取熱量(kcal)",
             dgetD [("分類", JVal.str "食"), ("品項", JVal.str "咖啡"),
                ("單價", JVal.int 50), ("數量", JVal.int 1)] "攝取糖份(g)",
             dgetD [("分類", JVal.str "食"), ("品項", JVal.str "咖啡"),
                ("單價", JVal.int 50), ("數量", JVal.int 1)] "剩餘量",
             dgetD [("分類", JVal.str "食"), ("品項", JVal.str "咖啡"),
                ("單價", JVal.int 50), ("數量", JVal.int 1)] "每日消耗(kcal)"] ∧
      row.get? 5 = some (JVal.int (50 * 1)) ∧
      (append_row [[JVal.str "表頭"]] row).getLast? = some row ∧
      (append_row [[JVal.str "表頭"]] row).length = [[JVal.str "表頭"]].length + 1) :=
  ⟨⟨by decide, by decide⟩,
   C6_write_round_trip "2024-01-01 09:30"
     [("分類", JVal.str "食"), ("品項", JVal.str "咖啡"),
      ("單價", JVal.int 50), ("數量", JVal.int 1)]
     [[JVal.str "表頭"]] 50 1 (by decide) (by decide)⟩

/-- C7 counterexample: a concrete non-cancelled run ("咖啡 50" against a
sheet with a matching row, extraction failing) in which the duplicate scan
ran although validation (and extraction) never completed — the trace shows
the scan BEFORE extraction and no validation stage at all, contradicting the
claimed order extraction → validation → scan. -/
theorem C7_counterexample :
    (handle_message (fun _ => none) (fun _ => some "no json here")
        [["表頭"], ["咖啡", "50"]] "2024-01-01 09:30"
        ⟨"咖啡 50", ⟨some "U1", none, none⟩⟩).trace
      = [Stage.intakeFilter, Stage.duplicateScan, Stage.extraction,
         Stage.respond] ∧
    Stage.validation ∉
      (handle_message (fun _ => none) (fun _ => some "no json here")
        [["表頭"], ["咖啡", "50"]] "2024-01-01 09:30"
        ⟨"咖啡 50", ⟨some "U1", none, none⟩⟩).trace ∧
    Stage.duplicateScan ∈
      (handle_message (fun _ => none) (fun _ => some "no json here")
        [["表頭"], ["咖啡", "50"]] "2024-01-01 09:30"
        ⟨"咖啡 50", ⟨some "U1", none, none⟩⟩).trace := by
  refine ⟨by decide, by decide, by decide⟩

/-- C7 (amended): the stages of every handler invocation execute in the
fixed order intake filter, duplicate scan, extraction, validation, ledger
write, response — in particular the duplicate scan always runs BEFORE
extraction and validation, not after them; every trace is a sublist of that
order. -/
theorem C7_stage_order (decode : String → Option RecordDict)
    (responses : Nat → Option String) (sheetData : List (List String))
    (now : String) (event : Event) :
    List.Sublist (handle_message decode responses sheetData now event).trace
      [Stage.intakeFilter, Stage.duplicateScan, Stage.extraction,
       Stage.validation, Stage.ledgerWrite, Stage.respond] := by
  simp only [handle_message, errPush]
  repeat' split
  all_goals dsimp only
  all_goals decide

/-- C9 counterexample: for an inbound event carrying only a group
identifier, the spec-side target selector picks the group id, but the
handler pushes only to the (absent) direct-user id: every attempted push has
target `none`, and the failure escapes as an unhandled error rather than
being skipped and logged. -/
theorem C9_counterexample :
    ((handle_message (fun _ => none) (fun _ => some "no json here") []
        "2024-01-01 09:30" ⟨"咖啡 50", ⟨none, some "G1", none⟩⟩).pushes).map
        Prod.fst = [none, none] ∧
    spec_push_target ⟨none, some "G1", none⟩ = some "G1" ∧
    (handle_message (fun _ => none) (fun _ => some "no json here") []
        "2024-01-01 09:30" ⟨"咖啡 50", ⟨none, some "G1", none⟩⟩).outcome
      = Outcome.unhandledError := by
  refine ⟨by decide, by decide, by decide⟩

/-- C9 (amended): every follow-up push of the handler is addressed to the
direct-user identifier `event.source.user_id`, regardless of which source
identifiers are present; group and room identifiers are never selected, and
there is no skip-and-log fallback (an absent user id makes the push raise). -/
theorem C9_push_target_is_user_id (decode : String → Option RecordDict)
    (responses : Nat → Option String) (sheetData : List (List String))
    (now : String) (event : Event) (p : Option String × String)
    (hp : p ∈ (handle_message decode responses sheetData now event).pushes) :
    p.1 = event.source.user_id := by
  obtain ⟨msgs, hmsgs⟩ :=
    handle_pushes_shape decode responses sheetData now event
  rw [hmsgs] at hp
  obtain ⟨m, _, hm⟩ := List.mem_map.mp hp
  exact hm ▸ rfl

/-- Witness for C9 (amended): in a concrete failing-extraction run the
attempted failure push is a member of the push list and its target is the
event's direct-user id. -/
theorem C9_push_target_is_user_id_witness :
    ((some "U1", failMsg) ∈
      (handle_message (fun _ => none) (fun _ => some "no json here") []
        "2024-01-01 09:30" ⟨"咖啡 50", ⟨some "U1", none, none⟩⟩).pushes) ∧
    ((some "U1", failMsg) : Option String × String).1
      = (⟨"咖啡 50", ⟨some "U1", none, none⟩⟩ : Event).source.user_id :=
  ⟨by decide,
   C9_push_target_is_user_id (fun _ => none) (fun _ => some "no json here") []
     "2024-01-01 09:30" ⟨"咖啡 50", ⟨some "U1", none, none⟩⟩
     (some "U1", failMsg) (by decide)⟩

/-- C10: for a message whose stripped text is empty (and which therefore
contains no cancellation keyword), deriving the scan token from the first
word fails, the catch-all turns this into the internal-error outcome (the
event carrying a user id to push the report to), and neither an extraction
request nor a ledger append occurs. -/
theorem C10_empty_text_internal_error (decode : String → Option RecordDict)
    (responses : Nat → Option String) (sheetData : List (List String))
    (now : String) (event : Event) (u : String)
    (htext : pyStrip event.text = "")
    (huid : event.source.user_id = some u) :
    (handle_message decode responses sheetData now event).outcome
        = Outcome.internalError ∧
    (handle_message decode responses sheetData now event).appends = [] ∧
    Stage.extraction ∉
      (handle_message decode responses sheetData now event).trace := by
  have hc : (CANCEL_KEYWORDS.any fun k => strContains (pyStrip event.text) k)
      = false := by rw [htext]; decide
  have hw : firstWord (pyStrip event.text) = none := by rw [htext]; rfl
  refine ⟨?_, ?_, ?_⟩ <;> simp [handle_message, errPush, hc, hw, huid]

/-- Witness for C10: a whitespace-only message from a direct user yields the
internal-error outcome with no extraction and no append. -/
theorem C10_empty_text_internal_error_witness :
    (pyStrip "   " = "" ∧
      (⟨"   ", ⟨some "U1", none, none⟩⟩ : Event).source.user_id = some "U1") ∧
    ((handle_message (fun _ => none) (fun _ => none) [["表頭"]]
        "2024-01-01 09:30" ⟨"   ", ⟨some "U1", none, none⟩⟩).outcome
        = Outcome.internalError ∧
     (handle_message (fun _ => none) (fun _ => none) [["表頭"]]
        "2024-01-01 09:30" ⟨"   ", ⟨some "U1", none, none⟩⟩).appends = [] ∧
     Stage.extraction ∉
       (handle_message (fun _ => none) (fun _ => none) [["表頭"]]
         "2024-01-01 09:30" ⟨"   ", ⟨some "U1", none, none⟩⟩).trace) :=
  ⟨⟨by decide, by decide⟩,
   C10_empty_text_internal_error (fun _ => none) (fun _ => none) [["表頭"]]
     "2024-01-01 09:30" ⟨"   ", ⟨some "U1", none, none⟩⟩ "U1"
     (by decide) (by decide)⟩

/-- C8 counterexample: on a response whose carved JSON candidate contains
typographic quotes, the code's pre-decode processing (`carve_json`) leaves
them (and any newlines or backslashes) untouched, while the spec-side
pipeline (`spec_clean_json`) normalizes them — the adapter performs only the
carving, not the claimed normalization and stripping. -/
theorem C8_counterexample :
    carve_json "x\x7b“a”\x7dy" = some "\x7b“a”\x7d" ∧
    spec_clean_json "x\x7b“a”\x7dy" = some "\x7b\"a\"\x7d" ∧
    carve_json "x\x7b“a”\x7dy" ≠ spec_clean_json "x\x7b“a”\x7dy" := by
  refine ⟨by decide, by decide, by decide⟩

/-- C8 (amended): before the strict decode the adapter only strips outer
whitespace from the response and carves the candidate from the first opening
brace to the last closing brace, returning that segment verbatim — with no
quote normalization and no removal of embedded newlines or escape
characters.  Formally: when the content splits as `a ++ brace ++ m ++
brace ++ z` with no opening brace in `a` and no closing brace in `z`, the
carved result is exactly the bracketed segment, character for character. -/
theorem C8_carve_exact (a m z : List Char)
    (ha : openBrace ∉ a) (hz : closeBrace ∉ z) :
    carve_json (String.mk (a ++ openBrace :: (m ++ closeBrace :: z)))
      = some (String.mk (openBrace :: (m ++ [closeBrace]))) := by
  have h1 : firstIdx openBrace (a ++ openBrace :: (m ++ closeBrace :: z))
      = some a.length := firstIdx_prefix openBrace a _ ha
  have hz' : closeBrace ∉ z.reverse := by simpa using hz
  have hrev : (a ++ openBrace :: (m ++ closeBrace :: z)).reverse
      = z.reverse ++ closeBrace :: (m.reverse ++ openBrace :: a.reverse) := by
    simp
  have h2 : firstIdx closeBrace
      ((a ++ openBrace :: (m ++ closeBrace :: z)).reverse)
      = some z.reverse.length := by
    rw [hrev]
    exact firstIdx_prefix closeBrace z.reverse _ hz'
  have hts : (String.mk (a ++ openBrace :: (m ++ closeBrace :: z))).toList
      = a ++ openBrace :: (m ++ closeBrace :: z) := rfl
  have hK : (a ++ openBrace :: (m ++ closeBrace :: z)).length - 1
      - z.reverse.length + 1 - a.length = m.length + 2 := by
    simp only [List.length_append, List.length_cons, List.length_reverse]
    omega
  simp only [carve_json]
  rw [hts, h1, h2]
  dsimp only
  rw [hK, List.drop_left]
  have h21 : m.length + 2 = (m.length + 1) + 1 := rfl
  rw [h21, List.take_succ_cons, take_append_len_one]

/-- Witness for C8 (amended) at the concrete content with one character of
prose on each side of the braces. -/
theorem C8_carve_exact_witness :
    (openBrace ∉ (['x'] : List Char) ∧ closeBrace ∉ (['y'] : List Char)) ∧
    carve_json (String.mk (['x'] ++ openBrace :: (['a'] ++ closeBrace :: ['y'])))
      = some (String.mk (openBrace :: (['a'] ++ [closeBrace]))) :=
  ⟨⟨by decide, by decide⟩,
   C8_carve_exact ['x'] ['a'] ['y'] (by decide) (by decide)⟩
